import Mathlib

/-!
Shallow embedding of the M1Project survey-analysis scripts
(`analyze_survey.py`, `analyze_awareness_impact.py`, `analyze_irreplaceability.py`).

Modelling conventions:
* A pandas cell is `Option Val`: `none` is NaN (a blank CSV cell, a failed
  ordinal lookup, or a failed numeric coercion); `Val.str` is an object cell,
  `Val.num` a float cell.  Float arithmetic is modelled by `ℚ`.
* A data-frame row is a total function from column name (field code) to cell;
  a data frame is the ordered list of its rows.
* Filters such as `df[df['Q27'] == 'Graduate']` become `List.filter`; pandas
  comparisons with NaN are false, which the `Bool`-valued predicates mirror.
* The one unguarded division in the scripts (`analyze_survey.py` line 119)
  is modelled with `Option ℚ`, where `none` stands for the
  `ZeroDivisionError` that Python raises when the denominator is `0`.
-/

namespace M1

/-- A pandas cell value: an object (string) cell or a numeric (float) cell.
Float values are modelled by rationals. -/
inductive Val where
  | str : String → Val
  | num : ℚ → Val
deriving DecidableEq

/-- A cell: `none` models NaN / a blank CSV field. -/
abbrev Cell := Option Val

/-- A data-frame row, keyed by field code (column name). -/
abbrev Row := String → Cell

/-- A data frame: the ordered list of its rows. -/
abbrev Table := List Row

/-- A raw CSV record: the cells of one line, in file order. -/
abbrev RawRow := List Cell

/-- The survey CSV: row 0 holds the field codes, row 1 the question texts,
and the remaining lines are the data records (possibly starting with one
import-metadata sentinel record). -/
structure Csv where
  codes : List String
  qtexts : List String
  rows : List RawRow

/-- The fixed marker beginning the first cell of a Qualtrics import-metadata
row (the literal the scripts test with `startswith`). -/
def importIdMarker : String := "\x7b\"ImportId\""

/-- `isinstance(x, str) and x.startswith('\x7b"ImportId"')` on one cell
(`startswith` as character-list prefix test). -/
def startsImportId : Cell → Bool
  | some (Val.str s) => importIdMarker.toList.isPrefixOf s.toList
  | _ => false

/-- `analyze_survey.py` lines 20-21 / `analyze_awareness_impact.py` lines
17-18: drop the first data record iff its first cell is a string starting
with the import-metadata marker.  (`df.iloc[0, 0]` would raise on a frame
with no data rows; the scripts are only run on non-empty exports and no
claim concerns that case, so the empty list is returned unchanged.) -/
def dropMetaRow : List RawRow → List RawRow
  | [] => []
  | r :: rest => if startsImportId (r.headD none) then rest else r :: rest

/-- `load_and_clean_data`: read with `header=[0,1]` (so the data records are
exactly `f.rows`), drop the metadata sentinel if present, and key columns by
field code alone. -/
def load_and_clean_data (f : Csv) : List RawRow := dropMetaRow f.rows

/-- The question-text line as pandas sees it when the file is read with the
default single header row (`analyze_irreplaceability.py` line 7): it becomes
the first *data* record. -/
def qtextRow (f : Csv) : RawRow := f.qtexts.map (fun s => some (Val.str s))

/-- `analyze_irreplaceability.py` lines 7-13: `pd.read_csv(file_path)` keys
columns by field code and yields the question-text line as data record 0,
then `df.drop(0)` removes that record unconditionally.  No import-metadata
check is performed. -/
def irrepData (f : Csv) : List RawRow := (qtextRow f :: f.rows).drop 1

/-- View raw records as rows keyed by the field codes of the header. -/
def tableOf (codes : List String) (rows : List RawRow) : Table :=
  rows.map (fun raw c =>
    match codes.indexOf? c with
    | some i => raw.getD i none
    | none => none)

/-- Digits-only decimal parse of a character list. -/
def parseDigits (cs : List Char) : Option Nat :=
  if cs ≠ [] ∧ cs.all (fun c => c.isDigit) then
    some (cs.foldl (fun n c => 10 * n + (c.toNat - 48)) 0)
  else none

/-- `pd.to_numeric(·, errors='coerce')` on one string: optional sign, integer
part, optional fractional part; anything else fails (becomes NaN). -/
def parseNum (s : String) : Option ℚ :=
  let cs : List Char := s.toList
  let neg : Bool := cs.headD ' ' == '-'
  let body : List Char := if neg then cs.tail else cs
  match body.splitOn '.' with
  | [ip] => (parseDigits ip).map (fun n => if neg then -(n : ℚ) else (n : ℚ))
  | [ip, fp] =>
    match parseDigits ip, parseDigits fp with
    | some i, some fr =>
      let q : ℚ := (i : ℚ) + (fr : ℚ) / ((10 : ℚ) ^ fp.length)
      some (if neg then -q else q)
    | _, _ => none
  | _ => none

/-- Numeric coercion of a value: a float stays itself, a string is parsed. -/
def parseVal : Val → Option ℚ
  | Val.num q => some q
  | Val.str s => parseNum s

/-- Numeric coercion of a cell: NaN stays NaN, a failed parse becomes NaN. -/
def parseCell : Cell → Option ℚ
  | some v => parseVal v
  | none => none

/-- `df[col] == 'lit'`: equality of a cell with a string literal (false on
NaN, as in pandas). -/
def cellEq (c : Cell) (s : String) : Bool := c == some (Val.str s)

/-! ### analyze_survey.py, area 1 (enrollment threat) -/

/-- Line 33: `df[df['Q27'] == 'Graduate']`. -/
def grad_students (df : Table) : Table :=
  df.filter (fun r => cellEq (r "Q27") "Graduate")

/-- Line 34: `len(grad_students)`. -/
def total_grad (df : Table) : ℕ := (grad_students df).length

/-- Line 38: `grad_students[grad_students['Q31'] == 'No']`. -/
def unaware_grad (df : Table) : Table :=
  (grad_students df).filter (fun r => cellEq (r "Q31") "No")

/-- Line 39: `len(unaware_grad)`. -/
def num_unaware (df : Table) : ℕ := (unaware_grad df).length

/-- Line 40: `(num_unaware / total_grad) * 100 if total_grad > 0 else 0`. -/
def pct_unaware (df : Table) : ℚ :=
  if total_grad df > 0 then ((num_unaware df : ℚ) / (total_grad df : ℚ)) * 100 else 0

/-- Lines 47-53: the fixed Q35 likert label → code table. -/
def q35_table : List (String × ℚ) :=
  [("Extremely unlikely", 1), ("Somewhat unlikely", 2),
   ("Neither likely nor unlikely", 3), ("Somewhat likely", 4),
   ("Extremely likely", 5)]

/-- Dictionary lookup in the Q35 table (`Series.map(q35_map)` per label). -/
def q35_map (s : String) : Option ℚ :=
  (q35_table.find? (fun p => p.1 == s)).map Prod.snd

/-- The labels of the Q35 table. -/
def q35_labels : List String := q35_table.map Prod.fst

/-- Line 56: the derived `Q35_numeric` cell of a row — NaN when Q35 is blank,
non-string, or an out-of-table label. -/
def q35_numeric (r : Row) : Option ℚ :=
  match r "Q35" with
  | some (Val.str s) => q35_map s
  | _ => none

/-- Line 59's row predicate `Q35_numeric <= 2` (false on NaN, as in pandas). -/
def lossPred (r : Row) : Bool :=
  match q35_numeric r with
  | some v => decide (v ≤ 2)
  | none => false

/-- Line 59: `unaware_grad[unaware_grad['Q35_numeric'] <= 2].shape[0]`. -/
def potential_loss_count (df : Table) : ℕ :=
  ((unaware_grad df).filter lossPred).length

/-- Rows of the unaware-graduate subset whose Q35 code is present (the
subset's valid count for Q35). -/
def valid_q35_count (df : Table) : ℕ :=
  ((unaware_grad df).filter (fun r => (q35_numeric r).isSome)).length

/-- Line 60: `(potential_loss_count / num_unaware) * 100 if num_unaware > 0
else 0`. -/
def pct_potential_loss_of_unaware (df : Table) : ℚ :=
  if num_unaware df > 0 then
    ((potential_loss_count df : ℚ) / (num_unaware df : ℚ)) * 100
  else 0

/-- Line 63: `(potential_loss_count / total_grad) * 100 if total_grad > 0
else 0`. -/
def pct_potential_loss_total (df : Table) : ℚ :=
  if total_grad df > 0 then
    ((potential_loss_count df : ℚ) / (total_grad df : ℚ)) * 100
  else 0

/-! ### analyze_survey.py, area 2 (ROI vs employer pressure) -/

/-- Line 100: `df['Q55'].fillna(df['Q44'])` at one row. -/
def ROI_Belief_Raw (r : Row) : Cell :=
  match r "Q55" with
  | some v => some v
  | none => r "Q44"

/-- Lines 103-109: the fixed ROI label → code table. -/
def roi_table : List (String × ℚ) :=
  [("Definitely not", 1), ("Probably not", 2), ("Might or might not", 3),
   ("Probably yes", 4), ("Definitely yes", 5)]

/-- Dictionary lookup in the ROI table. -/
def roi_map (s : String) : Option ℚ :=
  (roi_table.find? (fun p => p.1 == s)).map Prod.snd

/-- Line 110: the derived `ROI_Belief_Score` cell of a row. -/
def ROI_Belief_Score (r : Row) : Option ℚ :=
  match ROI_Belief_Raw r with
  | some (Val.str s) => roi_map s
  | _ => none

/-- Line 114: `df.dropna(subset=['ROI_Belief_Score', 'Q49'])`. -/
def roi_df (df : Table) : Table :=
  df.filter (fun r => (ROI_Belief_Score r).isSome && (r "Q49").isSome)

/-- Line 117: `roi_df[(roi_df['ROI_Belief_Score'] <= 3) & (roi_df['Q49'] ==
'Yes')]`. -/
def reluctant (df : Table) : Table :=
  (roi_df df).filter (fun r =>
    (match ROI_Belief_Score r with
     | some v => decide (v ≤ 3)
     | none => false) && cellEq (r "Q49") "Yes")

/-- Line 118: `len(reluctant)`. -/
def num_reluctant (df : Table) : ℕ := (reluctant df).length

/-- Line 119: `(num_reluctant / len(roi_df)) * 100` — the one percentage in
the scripts with no zero-denominator guard.  `none` models the
`ZeroDivisionError` Python raises when `len(roi_df) = 0`. -/
def pct_reluctant (df : Table) : Option ℚ :=
  if (roi_df df).length = 0 then none
  else some (((num_reluctant df : ℚ) / ((roi_df df).length : ℚ)) * 100)

/-! ### analyze_survey.py, area 3 (program value) and the in-place coercion -/

/-- Line 156: the six forced-ranking columns. -/
def q24cols : List String :=
  ["Q24_1", "Q24_2", "Q24_3", "Q24_4", "Q24_5", "Q24_6"]

/-- `pd.to_numeric(·, errors='coerce')` at cell level: the coerced column
holds floats, with NaN for blanks and failed parses. -/
def coerceCell (c : Cell) : Cell :=
  match c with
  | some v => (parseVal v).map Val.num
  | none => none

/-- Lines 167-168: `for col in cols: df[col] = pd.to_numeric(df[col],
errors='coerce')` — the table after area 3's column assignment, which writes
the coerced values back into the six existing Q24 columns of `df` itself. -/
def area3Transform (df : Table) : Table :=
  df.map (fun r c => if q24cols.contains c then coerceCell (r c) else r c)

/-- Lines 100 and 110: the table after area 2's two column assignments,
which add the derived columns `ROI_Belief_Raw` and `ROI_Belief_Score`. -/
def area2Transform (df : Table) : Table :=
  df.map (fun r c =>
    if c = "ROI_Belief_Raw" then ROI_Belief_Raw r
    else if c = "ROI_Belief_Score" then (ROI_Belief_Score r).map Val.num
    else r c)

/-! ### Mean aggregation (analyze_survey.py lines 167-171,
analyze_irreplaceability.py lines 30-40) -/

/-- The successfully coerced values of one column over a table (what
`Series.mean()` averages after `to_numeric(errors='coerce')`: NaNs are
skipped). -/
def colValues (df : Table) (c : String) : List ℚ :=
  df.filterMap (fun r => parseCell (r c))

/-- `df[c].mean()`: the arithmetic mean of the column's non-missing coerced
values, NaN (`none`) when there are none. -/
def colMean (df : Table) (c : String) : Option ℚ :=
  if colValues df c = [] then none
  else some ((colValues df c).sum / ((colValues df c).length : ℚ))

/-- `analyze_irreplaceability.py` lines 16-23: `columns_mapping`. -/
def columns_mapping : List (String × String) :=
  [("Q24_1", "CPA Exam Prep"), ("Q24_2", "Networking (Peers/Alumni)"),
   ("Q24_3", "Faculty Interaction"), ("Q24_4", "Technical Skills"),
   ("Q24_5", "Soft Skills"), ("Q24_6", "Recruiting/Internships")]

/-- Lines 34-37: `df_subset.mean()` followed by the display rename — one
(label, mean) entry per Q24 column, in the original column order. -/
def mean_ranks (df : Table) : List (String × Option ℚ) :=
  columns_mapping.map (fun p => (p.2, colMean df p.1))

/-- The comparison `sort_values(ascending=True)` sorts by: ascending on the
float means, with NaN placed last (pandas `nargsort` keeps NaNs at the end). -/
def leMean (a b : String × Option ℚ) : Bool :=
  match a.2, b.2 with
  | some x, some y => decide (x ≤ y)
  | some _, none => true
  | none, some _ => false
  | none, none => true

/-- Line 40: `mean_ranks.sort_values(ascending=True)`.  pandas sorts a
six-element Series with numpy's quicksort, which runs plain insertion sort
on arrays below 16 elements and keeps NaNs last in encounter order — a
stable ascending sort, embedded as a stable merge sort. -/
def sorted_ranks (df : Table) : List (String × Option ℚ) :=
  (mean_ranks df).mergeSort leMean

/-- `analyze_survey.py` line 171: the same sort keyed by field code. -/
def mean_ranks_survey (df : Table) : List (String × Option ℚ) :=
  q24cols.map (fun c => (c, colMean df c))

/-- `analyze_survey.py` line 171, sorted. -/
def sorted_ranks_survey (df : Table) : List (String × Option ℚ) :=
  (mean_ranks_survey df).mergeSort leMean

/-! ### analyze_awareness_impact.py -/

/-- Line 34: `df[(df['Q27'] == 'Graduate') & (df['Q31'].notna())]`. -/
def grad_df (df : Table) : Table :=
  df.filter (fun r => cellEq (r "Q27") "Graduate" && (r "Q31").isSome)

/-- Line 35: `len(grad_df)` — the valid (non-blank Q31) graduate count. -/
def total_grad_gap (df : Table) : ℕ := (grad_df df).length

/-- Line 38: `grad_aware_counts.get('No', 0)`. -/
def unaware_grad_count (df : Table) : ℕ :=
  ((grad_df df).filter (fun r => cellEq (r "Q31") "No")).length

/-- Line 41: `(unaware_grad_count / total_grad) * 100 if total_grad > 0
else 0`. -/
def pct_unaware_grad (df : Table) : ℚ :=
  if total_grad_gap df > 0 then
    ((unaware_grad_count df : ℚ) / (total_grad_gap df : ℚ)) * 100
  else 0

/-- Line 50: `df[(df['Q27'] == 'Undergraduate') & (df['Q53'].notna())]`. -/
def undergrad_df (df : Table) : Table :=
  df.filter (fun r => cellEq (r "Q27") "Undergraduate" && (r "Q53").isSome)

/-- Line 54: `undergrad_aware_counts.get('No', 0)`. -/
def unaware_undergrad_count (df : Table) : ℕ :=
  ((undergrad_df df).filter (fun r => cellEq (r "Q53") "No")).length

/-- Line 57: `(unaware_undergrad_count / total_undergrad) * 100 if
total_undergrad > 0 else 0`. -/
def pct_unaware_undergrad (df : Table) : ℚ :=
  if (undergrad_df df).length > 0 then
    ((unaware_undergrad_count df : ℚ) / ((undergrad_df df).length : ℚ)) * 100
  else 0

/-- Line 130: `df[(df['Q27'] == 'Graduate') & (df['Q31'] == 'No') &
(df['Q35'].notna())]`. -/
def unaware_grads_q35 (df : Table) : Table :=
  df.filter (fun r =>
    cellEq (r "Q27") "Graduate" && cellEq (r "Q31") "No" && (r "Q35").isSome)

/-- Line 137: `q35_counts.get('Extremely unlikely', 0) +
q35_counts.get('Somewhat unlikely', 0)`. -/
def unlikely_count (df : Table) : ℕ :=
  ((unaware_grads_q35 df).filter (fun r => cellEq (r "Q35") "Extremely unlikely")).length +
  ((unaware_grads_q35 df).filter (fun r => cellEq (r "Q35") "Somewhat unlikely")).length

/-- Line 138: `(unlikely_count / total_unaware_grads) * 100 if
total_unaware_grads > 0 else 0`. -/
def regret_pct (df : Table) : ℚ :=
  if (unaware_grads_q35 df).length > 0 then
    ((unlikely_count df : ℚ) / ((unaware_grads_q35 df).length : ℚ)) * 100
  else 0

/-! ### Script entry points (file → outputs) -/

/-- The metrics dict returned by `area_1_enrollment_threat`. -/
def area1_metrics (df : Table) : ℕ × ℚ × ℚ × ℚ :=
  (total_grad df, pct_unaware df, pct_potential_loss_of_unaware df,
   pct_potential_loss_total df)

/-- The metrics dict returned by `area_2_roi_pressure`; `none` when line 119
raises `ZeroDivisionError`. -/
def area2_metrics (df : Table) : Option (ℕ × ℚ) :=
  (pct_reluctant df).map (fun p => (num_reluctant df, p))

/-- `analyze_survey.py` `__main__`: `none` input models a missing file, on
which `pd.read_csv` raises an uncaught `FileNotFoundError` — the process
terminates before any chart or the summary CSV is written (`Except.error`).
A `ZeroDivisionError` in area 2 likewise aborts before `export_summary`. -/
def surveyMain (file : Option Csv) :
    Except Unit ((ℕ × ℚ × ℚ × ℚ) × (ℕ × ℚ) × List (String × Option ℚ)) :=
  match file with
  | none => Except.error ()
  | some f =>
    let df := tableOf f.codes (load_and_clean_data f)
    let m1 := area1_metrics df
    match area2_metrics (area2Transform df) with
    | none => Except.error ()
    | some m2 => Except.ok (m1, m2, sorted_ranks_survey (area3Transform df))

/-- `analyze_awareness_impact.py` `main`: `none` input models a missing
file (uncaught `FileNotFoundError`, no summary file written). -/
def awarenessMain (file : Option Csv) : Except Unit (ℚ × ℚ × ℚ) :=
  match file with
  | none => Except.error ()
  | some f =>
    let df := tableOf f.codes (load_and_clean_data f)
    Except.ok (pct_unaware_grad df, pct_unaware_undergrad df, regret_pct df)

/-- `analyze_irreplaceability.py` top level: a missing file is caught by the
`try/except FileNotFoundError` of lines 6-10, which prints an error and
calls `exit(1)` before any output is produced. -/
def irrepMain (file : Option Csv) : Except Unit (List (String × Option ℚ)) :=
  match file with
  | none => Except.error ()
  | some f => Except.ok (sorted_ranks (tableOf f.codes (irrepData f)))

/-! ### Concrete fixtures for counterexamples and witnesses -/

/-- Build a row from an association list of answered fields; every other
field is blank. -/
def mkRow (ps : List (String × Val)) : Row :=
  fun c => (ps.find? (fun p => p.1 == c)).map Prod.snd

/-- The all-blank row. -/
def blankRow : Row := fun _ => none

/-- A graduate respondent who answered Q31 with `No`. -/
def rGradNo : Row := mkRow [("Q27", Val.str "Graduate"), ("Q31", Val.str "No")]

/-- A graduate respondent who left Q31 blank. -/
def rGradBlank : Row := mkRow [("Q27", Val.str "Graduate")]

/-- Two graduate respondents: one unaware (`Q31 = No`), one with Q31 blank. -/
def T2 : Table := [rGradNo, rGradBlank]

/-- An unaware graduate whose Q35 answer is not in the likert table. -/
def rQ35Bad : Row :=
  mkRow [("Q27", Val.str "Graduate"), ("Q31", Val.str "No"), ("Q35", Val.str "bad")]

/-- Scenario B: five unaware graduates whose Q35 answers code to
1, 2, unmapped, 4, 5. -/
def T3 : Table :=
  [mkRow [("Q27", Val.str "Graduate"), ("Q31", Val.str "No"),
          ("Q35", Val.str "Extremely unlikely")],
   mkRow [("Q27", Val.str "Graduate"), ("Q31", Val.str "No"),
          ("Q35", Val.str "Somewhat unlikely")],
   rQ35Bad,
   mkRow [("Q27", Val.str "Graduate"), ("Q31", Val.str "No"),
          ("Q35", Val.str "Somewhat likely")],
   mkRow [("Q27", Val.str "Graduate"), ("Q31", Val.str "No"),
          ("Q35", Val.str "Extremely likely")]]

/-- Scenario B without the unmapped row (for the cons-invariance witness). -/
def T3rest : Table := T3.tail.tail

/-- One respondent who answered only Q27: no ROI-belief score and no Q49,
so `roi_df` is empty for the single-row table below. -/
def T1 : Table := [rGradBlank]

/-- A table whose Q24_1 and Q24_2 means tie at 2 (all other Q24 columns
have no valid values). -/
def df4 : Table := [mkRow [("Q24_1", Val.str "2"), ("Q24_2", Val.str "2")]]

/-- The serialized import-metadata first cell of a Qualtrics export. -/
def metaCellText : String := "\x7b\"ImportId\":\"startDate\"\x7d"

/-- An import-metadata sentinel record. -/
def metaRow5 : RawRow := [some (Val.str metaCellText)]

/-- A genuine response record. -/
def respRow5 : RawRow := [some (Val.str "Graduate")]

/-- A survey export whose first data record is the import-metadata
sentinel, followed by one genuine response. -/
def cex5 : Csv := ⟨["Q27"], ["What is your current enrollment status?"], [metaRow5, respRow5]⟩

/-- A respondent whose Q24_1 ranking is unparseable. -/
def r9 : Row := mkRow [("Q24_1", Val.str "bad"), ("Q27", Val.str "Graduate")]

/-- A row for the numeric-coercion witness: Q24_1 parses to 2. -/
def r8ok : Row := mkRow [("Q24_1", Val.str "2")]

/-- A respondent who answered both ROI-belief questions. -/
def r55 : Row :=
  mkRow [("Q55", Val.str "Definitely yes"), ("Q44", Val.str "Probably not")]

/-! ## Helper lemmas -/

theorem leMean_trans (a b c : String × Option ℚ) :
    leMean a b → leMean b c → leMean a c := by
  intro h1 h2
  rcases a with ⟨a1, _ | x⟩ <;> rcases b with ⟨b1, _ | y⟩ <;> rcases c with ⟨c1, _ | z⟩
  all_goals simp_all [leMean]
  all_goals linarith

theorem leMean_total (a b : String × Option ℚ) : leMean a b || leMean b a := by
  rcases a with ⟨a1, _ | x⟩ <;> rcases b with ⟨b1, _ | y⟩
  · rfl
  · rfl
  · rfl
  · simpa [leMean] using le_total x y

theorem leMean_of_eq {a b : String × Option ℚ} (h : a.2 = b.2) : leMean a b = true := by
  unfold leMean
  rw [h]
  rcases hb : b.2 with _ | y
  · rfl
  · simp

theorem lossPred_isSome {r : Row} (h : lossPred r = true) :
    (q35_numeric r).isSome = true := by
  rcases hq : q35_numeric r with _ | v
  · unfold lossPred at h
    rw [hq] at h
    simp at h
  · simp [hq]

theorem loss_le_valid (df : Table) :
    potential_loss_count df ≤ valid_q35_count df := by
  unfold potential_loss_count valid_q35_count
  exact List.Sublist.length_le
    (List.monotone_filter_right _ (fun r h => lossPred_isSome h))

theorem colMean_df4_q1 : colMean df4 "Q24_1" = some 2 := by
  have hv : colValues df4 "Q24_1" = [((2 : ℕ) : ℚ)] := rfl
  rw [colMean, hv]
  norm_num

theorem colMean_df4_q2 : colMean df4 "Q24_2" = some 2 := by
  have hv : colValues df4 "Q24_2" = [((2 : ℕ) : ℚ)] := rfl
  rw [colMean, hv]
  norm_num

theorem tie_sublist_mean_ranks :
    [("CPA Exam Prep", some (2 : ℚ)), ("Networking (Peers/Alumni)", some (2 : ℚ))].Sublist
      (mean_ranks df4) := by
  have h0 : mean_ranks df4 =
      [("CPA Exam Prep", colMean df4 "Q24_1"),
       ("Networking (Peers/Alumni)", colMean df4 "Q24_2"),
       ("Faculty Interaction", colMean df4 "Q24_3"),
       ("Technical Skills", colMean df4 "Q24_4"),
       ("Soft Skills", colMean df4 "Q24_5"),
       ("Recruiting/Internships", colMean df4 "Q24_6")] := rfl
  rw [h0, colMean_df4_q1, colMean_df4_q2]
  exact List.Sublist.cons₂ _ (List.Sublist.cons₂ _ (List.nil_sublist _))

/-! ## Claim theorems -/

/-- Claim C1 (code_bug evaluation): every percentage that the scripts guard
(`if denominator > 0 else 0`) is 0 on the empty subset, but the
reluctant-students percentage of `analyze_survey.py` line 119 has no guard:
on a table whose ROI subset (non-missing ROI score and Q49) is empty, the
division `num_reluctant / len(roi_df)` raises `ZeroDivisionError`
(modelled as `none`), instead of yielding 0.0 as the claim states. -/
theorem pct_reluctant_zero_denominator_error :
    pct_unaware ([] : Table) = 0 ∧
    pct_potential_loss_of_unaware ([] : Table) = 0 ∧
    pct_potential_loss_total ([] : Table) = 0 ∧
    pct_unaware_grad ([] : Table) = 0 ∧
    pct_unaware_undergrad ([] : Table) = 0 ∧
    regret_pct ([] : Table) = 0 ∧
    pct_reluctant ([] : Table) = none ∧
    pct_reluctant T1 = none :=
  ⟨rfl, rfl, rfl, rfl, rfl, rfl, by decide, by decide⟩

/-- Claim C2 counterexample: on a table with one unaware graduate and one
graduate whose Q31 is blank, `analyze_survey.py` line 40 reports 50%
unaware — its denominator counts the blank-Q31 graduate — whereas a
denominator restricted to non-blank Q31 answers (as the claim states, and
as `analyze_awareness_impact.py` computes) gives 100%. -/
theorem survey_unaware_pct_counts_blank_q31 :
    pct_unaware T2 = 50 ∧ pct_unaware_grad T2 = 100 ∧ (50 : ℚ) ≠ 100 := by
  refine ⟨?_, ?_, by norm_num⟩
  · have h1 : num_unaware T2 = 1 := by decide
    have h2 : total_grad T2 = 2 := by decide
    rw [pct_unaware, h1, h2]
    norm_num
  · have h1 : unaware_grad_count T2 = 1 := by decide
    have h2 : total_grad_gap T2 = 1 := by decide
    rw [pct_unaware_grad, h1, h2]
    norm_num

/-- Claim C2 (amended): a blank answer never enters a numerator; in
`analyze_awareness_impact.py` a blank Q31 is also excluded from the
denominator (adding a blank-Q31 graduate row changes nothing), while in
`analyze_survey.py` the unaware-percentage denominator is the count of all
Graduate rows, so a blank-Q31 graduate row increments it. -/
theorem blank_q31_exclusion_per_script :
    ∀ (df : Table) (r : Row),
      cellEq (r "Q27") "Graduate" = true → r "Q31" = none →
      total_grad (r :: df) = total_grad df + 1 ∧
      num_unaware (r :: df) = num_unaware df ∧
      grad_df (r :: df) = grad_df df ∧
      pct_unaware_grad (r :: df) = pct_unaware_grad df := by
  intro df r h27 h31
  have hno : cellEq (r "Q31") "No" = false := by rw [h31]; rfl
  have hsome : (r "Q31").isSome = false := by rw [h31]; rfl
  have hgs : grad_students (r :: df) = r :: grad_students df := by
    simp [grad_students, List.filter_cons, h27]
  have hgd : grad_df (r :: df) = grad_df df := by
    simp [grad_df, List.filter_cons, h27, hsome]
  refine ⟨?_, ?_, hgd, ?_⟩
  · simp [total_grad, hgs]
  · simp [num_unaware, unaware_grad, hgs, List.filter_cons, hno]
  · simp [pct_unaware_grad, total_grad_gap, unaware_grad_count, hgd]

/-- Witness for the amended C2 at a concrete table: one unaware graduate
plus one blank-Q31 graduate. -/
theorem blank_q31_exclusion_per_script_witness :
    total_grad (rGradBlank :: [rGradNo]) = total_grad [rGradNo] + 1 ∧
    num_unaware (rGradBlank :: [rGradNo]) = num_unaware [rGradNo] ∧
    grad_df (rGradBlank :: [rGradNo]) = grad_df [rGradNo] ∧
    pct_unaware_grad (rGradBlank :: [rGradNo]) = pct_unaware_grad [rGradNo] :=
  blank_q31_exclusion_per_script [rGradNo] rGradBlank (by decide) rfl

/-- Claim C3 counterexample: on Scenario B's input (codes 1, 2, unmapped,
4, 5 with threshold ≤ 2) the code produces threshold_count = 2 and
valid_count = 4 as claimed, but the reported percentage is
2 / 5 × 100 = 40.0% — the denominator of `analyze_survey.py` line 60 is the
whole subset, not the valid count — contradicting the claimed 50.0%. -/
theorem scenarioB_threshold_pct_is_forty :
    potential_loss_count T3 = 2 ∧ valid_q35_count T3 = 4 ∧
    pct_potential_loss_of_unaware T3 = 40 ∧ (40 : ℚ) ≠ 50 := by
  refine ⟨by decide, by decide, ?_, by norm_num⟩
  have h1 : potential_loss_count T3 = 2 := by decide
  have h2 : num_unaware T3 = 5 := by decide
  rw [pct_potential_loss_of_unaware, h1, h2]
  norm_num

/-- Claim C3 (amended): the threshold aggregation counts exactly the rows
whose code is ≤ the threshold (a missing/unmapped code is never counted, so
the count never exceeds the valid count), but its reported percentage is
taken of the subset's total row count — rows with missing codes included —
so Scenario B yields valid_count = 4, threshold_count = 2 and 40.0%. -/
theorem threshold_count_and_subset_denominator :
    (∀ df : Table, potential_loss_count df ≤ valid_q35_count df) ∧
    (∀ (df : Table) (r : Row),
      cellEq (r "Q27") "Graduate" = true → cellEq (r "Q31") "No" = true →
      q35_numeric r = none →
      potential_loss_count (r :: df) = potential_loss_count df ∧
      num_unaware (r :: df) = num_unaware df + 1) ∧
    potential_loss_count T3 = 2 ∧ valid_q35_count T3 = 4 ∧
    pct_potential_loss_of_unaware T3 = 40 := by
  refine ⟨loss_le_valid, ?_, by decide, by decide, ?_⟩
  · intro df r h27 h31 hq
    have hug : unaware_grad (r :: df) = r :: unaware_grad df := by
      simp [unaware_grad, grad_students, List.filter_cons, h27, h31]
    have hl : lossPred r = false := by
      unfold lossPred
      rw [hq]
    constructor
    · simp [potential_loss_count, hug, List.filter_cons, hl]
    · simp [num_unaware, hug]
  · have h1 : potential_loss_count T3 = 2 := by decide
    have h2 : num_unaware T3 = 5 := by decide
    rw [pct_potential_loss_of_unaware, h1, h2]
    norm_num

/-- Witness for the amended C3: adding the unmapped-Q35 row of Scenario B
to the four mapped rows leaves the threshold count at 2 and grows the
subset to 5. -/
theorem threshold_count_and_subset_denominator_witness :
    potential_loss_count (rQ35Bad :: T3rest) = potential_loss_count T3rest ∧
    num_unaware (rQ35Bad :: T3rest) = num_unaware T3rest + 1 :=
  threshold_count_and_subset_denominator.2.1 T3rest rQ35Bad (by decide) (by decide) (by decide)

/-- Claim C4 (confirmed): the ranking is a permutation of the per-field
(label, mean) entries, sorted ascending by mean (NaN last), ties keep the
original field order (any order-respecting tied pair of entries survives
into the sorted output), and each present mean is the arithmetic mean of
the field's non-missing values (mean × count = sum). -/
theorem mean_rank_sort_stable_ascending :
    ∀ df : Table,
      (sorted_ranks df).Perm (mean_ranks df) ∧
      (sorted_ranks df).Pairwise (fun a b => leMean a b = true) ∧
      (∀ a b : String × Option ℚ,
        [a, b].Sublist (mean_ranks df) → a.2 = b.2 →
        [a, b].Sublist (sorted_ranks df)) ∧
      (∀ (c : String) (q : ℚ), colMean df c = some q →
        q * ((colValues df c).length : ℚ) = (colValues df c).sum) := by
  intro df
  refine ⟨List.mergeSort_perm _ _, ?_, ?_, ?_⟩
  · exact List.sorted_mergeSort leMean_trans leMean_total (mean_ranks df)
  · intro a b hs he
    exact List.pair_sublist_mergeSort leMean_trans leMean_total (leMean_of_eq he) hs
  · intro c q h
    have hne : colValues df c ≠ [] := by
      intro hemp
      rw [colMean, if_pos hemp] at h
      exact Option.noConfusion h
    have hq : (colValues df c).sum / ((colValues df c).length : ℚ) = q := by
      rw [colMean, if_neg hne] at h
      exact Option.some_injective _ h
    have hlen : ((colValues df c).length : ℚ) ≠ 0 := by
      have hpos : 0 < (colValues df c).length := List.length_pos.mpr hne
      exact_mod_cast Nat.pos_iff_ne_zero.mp hpos
    rw [← hq]
    exact div_mul_cancel₀ _ hlen

/-- Witness for C4: on a table where the Q24_1 and Q24_2 means tie at 2,
the tied pair survives in original order into the sorted ranking, and the
mean satisfies mean × count = sum. -/
theorem mean_rank_sort_stable_ascending_witness :
    [("CPA Exam Prep", some (2 : ℚ)), ("Networking (Peers/Alumni)", some (2 : ℚ))].Sublist
        (sorted_ranks df4) ∧
    (2 : ℚ) * ((colValues df4 "Q24_1").length : ℚ) = (colValues df4 "Q24_1").sum :=
  ⟨(mean_rank_sort_stable_ascending df4).2.2.1 _ _ tie_sublist_mean_ranks rfl,
   (mean_rank_sort_stable_ascending df4).2.2.2 "Q24_1" 2 colMean_df4_q1⟩

/-- Claim C5 counterexample: on an export whose first data record is the
import-metadata sentinel, `analyze_irreplaceability.py` (which drops only
the question-text record, unconditionally) keeps the sentinel record in its
table, although its first cell starts with the fixed marker; the two-header
scripts drop it. -/
theorem irrep_keeps_import_metadata_row :
    irrepData cex5 = [metaRow5, respRow5] ∧
    startsImportId (metaRow5.headD none) = true ∧
    load_and_clean_data cex5 = [respRow5] :=
  ⟨rfl, by decide, by decide⟩

/-- Claim C5 (amended): in `analyze_survey.py` and
`analyze_awareness_impact.py` the first data record is discarded iff its
first cell starts with the import-metadata marker (a genuine first response
is kept); `analyze_irreplaceability.py` only drops the question-text record
and keeps all data records, the sentinel included. -/
theorem meta_row_drop_per_script :
    (∀ (r : RawRow) (rest : List RawRow),
      (startsImportId (r.headD none) = true → dropMetaRow (r :: rest) = rest) ∧
      (startsImportId (r.headD none) = false → dropMetaRow (r :: rest) = r :: rest)) ∧
    (∀ f : Csv, irrepData f = f.rows) := by
  constructor
  · intro r rest
    rw [List.headD_eq_head?_getD]
    constructor <;> intro h <;> simp [dropMetaRow, h]
  · intro f
    rfl

/-- Witness for the amended C5: the sentinel record is dropped by the
two-header loader, a genuine response record is kept, and the
single-header script keeps every data record of the sentinel-bearing
export. -/
theorem meta_row_drop_per_script_witness :
    dropMetaRow (metaRow5 :: [respRow5]) = [respRow5] ∧
    dropMetaRow (respRow5 :: [metaRow5]) = respRow5 :: [metaRow5] ∧
    irrepData cex5 = cex5.rows :=
  ⟨(meta_row_drop_per_script.1 metaRow5 [respRow5]).1 (by decide),
   (meta_row_drop_per_script.1 respRow5 [metaRow5]).2 (by decide),
   meta_row_drop_per_script.2 cex5⟩

/-- Claim C6 (confirmed): on a missing input file every script fails before
producing any output artifact — `analyze_irreplaceability.py` catches
`FileNotFoundError`, prints an error and exits with status 1; the other two
let the exception propagate, which also terminates the process before any
chart or summary is written.  None continues with undefined or empty
data. -/
theorem missing_file_terminates_without_output :
    surveyMain none = Except.error () ∧
    awarenessMain none = Except.error () ∧
    irrepMain none = Except.error () :=
  ⟨rfl, rfl, rfl⟩

/-- Claim C7 (confirmed): the Q35 ordinal coding is a total function —
a label in the fixed table codes to a value in 1..5, a label is mapped iff
it is in the table (anything else codes to the missing value, nothing is
raised), and a missing code is excluded downstream: it never satisfies the
threshold predicate, so the threshold count never exceeds the valid
count. -/
theorem q35_ordinal_coding_total_and_excluded :
    (∀ (s : String) (q : ℚ), q35_map s = some q → 1 ≤ q ∧ q ≤ 5) ∧
    (∀ s : String, (q35_map s).isSome = true ↔ s ∈ q35_labels) ∧
    (∀ r : Row, q35_numeric r = none → lossPred r = false) ∧
    (∀ df : Table, potential_loss_count df ≤ valid_q35_count df) := by
  refine ⟨?_, ?_, ?_, loss_le_valid⟩
  · intro s q h
    rw [q35_map, Option.map_eq_some'] at h
    obtain ⟨p, hp, hq⟩ := h
    have hmem := List.mem_of_find?_eq_some hp
    rw [← hq]
    fin_cases hmem <;> norm_num
  · intro s
    simp only [q35_map, q35_labels, Option.isSome_map', List.find?_isSome, List.mem_map,
      beq_iff_eq]
  · intro r h
    unfold lossPred
    rw [h]

/-- Witness for C7: the in-table label `Extremely likely` codes into 1..5,
and the all-blank row has a missing code and is never threshold-counted. -/
theorem q35_ordinal_coding_total_and_excluded_witness :
    ((1 : ℚ) ≤ 5 ∧ (5 : ℚ) ≤ 5) ∧ lossPred blankRow = false :=
  ⟨q35_ordinal_coding_total_and_excluded.1 "Extremely likely" 5 (by decide),
   q35_ordinal_coding_total_and_excluded.2.2.1 blankRow rfl⟩

/-- Claim C8 (confirmed): a value that fails numeric coercion contributes
nothing to the column's value list or to its mean (prepending such a row
changes neither), and every value entering the mean is the successful parse
of some row's cell; the coercion itself is a total function, so no failure
aborts the computation. -/
theorem unparseable_values_excluded_from_mean :
    ∀ (df : Table) (r : Row) (c : String),
      parseCell (r c) = none →
      colValues (r :: df) c = colValues df c ∧
      colMean (r :: df) c = colMean df c ∧
      ∀ q ∈ colValues (r :: df) c, ∃ r2 ∈ r :: df, parseCell (r2 c) = some q := by
  intro df r c h
  have hv : colValues (r :: df) c = colValues df c := by
    have h2 : (fun r2 : Row => parseCell (r2 c)) r = none := h
    unfold colValues
    exact List.filterMap_cons_none h2
  refine ⟨hv, ?_, ?_⟩
  · unfold colMean
    rw [hv]
  · intro q hq
    rw [colValues, List.mem_filterMap] at hq
    obtain ⟨r2, hr2, hp⟩ := hq
    exact ⟨r2, hr2, hp⟩

/-- Witness for C8: prepending a row whose Q24_1 is the unparseable string
`bad` leaves the Q24_1 values and mean unchanged. -/
theorem unparseable_values_excluded_from_mean_witness :
    colValues (r9 :: [r8ok]) "Q24_1" = colValues [r8ok] "Q24_1" ∧
    colMean (r9 :: [r8ok]) "Q24_1" = colMean [r8ok] "Q24_1" :=
  ⟨(unparseable_values_excluded_from_mean [r8ok] r9 "Q24_1" (by decide)).1,
   (unparseable_values_excluded_from_mean [r8ok] r9 "Q24_1" (by decide)).2.1⟩

/-- Claim C9 counterexample: area 3's numeric coercion is written back into
the existing Q24 columns of the shared frame (`df[col] = pd.to_numeric(...)`),
so on a row whose Q24_1 holds the string `bad` the stored value changes
from that string to missing — an in-place mutation of an existing column,
not the addition of a derived one. -/
theorem area3_coercion_mutates_q24_in_place :
    r9 "Q24_1" = some (Val.str "bad") ∧
    ((area3Transform [r9]).headD blankRow) "Q24_1" = none := by
  exact ⟨by decide, by decide⟩

/-- Claim C9 (amended): every analysis leaves the columns it does not
assign unchanged — area 2 only adds the derived `ROI_Belief_Raw` and
`ROI_Belief_Score` columns — but area 3 overwrites the six existing Q24
columns in place with their numeric coercions. -/
theorem column_preservation_amended :
    (∀ (df : Table) (c : String), q24cols.contains c = false →
      (area3Transform df).map (fun r => r c) = df.map (fun r => r c)) ∧
    (∀ (df : Table) (c : String), q24cols.contains c = true →
      (area3Transform df).map (fun r => r c) = df.map (fun r => coerceCell (r c))) ∧
    (∀ (df : Table) (c : String), c ≠ "ROI_Belief_Raw" → c ≠ "ROI_Belief_Score" →
      (area2Transform df).map (fun r => r c) = df.map (fun r => r c)) := by
  refine ⟨?_, ?_, ?_⟩
  · intro df c h
    have hc : c ∉ q24cols := by simpa using h
    unfold area3Transform
    rw [List.map_map]
    apply List.map_congr_left
    intro a _
    simp [Function.comp_def, h]
    intro hmem
    exact absurd hmem hc
  · intro df c h
    have hc : c ∈ q24cols := by simpa using h
    unfold area3Transform
    rw [List.map_map]
    apply List.map_congr_left
    intro a _
    simp [Function.comp_def, h]
    intro hn
    exact absurd hc hn
  · intro df c h1 h2
    unfold area2Transform
    rw [List.map_map]
    apply List.map_congr_left
    intro a _
    simp [Function.comp_def, h1, h2]

/-- Witness for the amended C9: on the `bad`-Q24_1 row, area 3 preserves
the Q27 column and coerces the Q24_1 column, and area 2 preserves Q27. -/
theorem column_preservation_amended_witness :
    (area3Transform [r9]).map (fun r => r "Q27") = [r9].map (fun r => r "Q27") ∧
    (area3Transform [r9]).map (fun r => r "Q24_1") =
      [r9].map (fun r => coerceCell (r "Q24_1")) ∧
    (area2Transform [r9]).map (fun r => r "Q27") = [r9].map (fun r => r "Q27") :=
  ⟨column_preservation_amended.1 [r9] "Q27" (by decide),
   column_preservation_amended.2.1 [r9] "Q24_1" (by decide),
   column_preservation_amended.2.2 [r9] "Q27" (by decide) (by decide)⟩

/-- Claim C10 (confirmed): `df['Q55'].fillna(df['Q44'])` takes the row's
Q55 answer whenever Q55 is non-blank, and the Q44 answer otherwise; the
combined value is missing exactly when both are blank. -/
theorem roi_belief_raw_combines_q55_q44 :
    ∀ r : Row,
      (∀ v : Val, r "Q55" = some v → ROI_Belief_Raw r = some v) ∧
      (r "Q55" = none → ROI_Belief_Raw r = r "Q44") ∧
      (ROI_Belief_Raw r = none ↔ r "Q55" = none ∧ r "Q44" = none) := by
  intro r
  rcases hq : r "Q55" with _ | v <;> simp [ROI_Belief_Raw, hq]

/-- Witness for C10: a row answering both questions combines to its Q55
answer, and the all-blank row combines to its (blank) Q44 answer. -/
theorem roi_belief_raw_combines_q55_q44_witness :
    ROI_Belief_Raw r55 = some (Val.str "Definitely yes") ∧
    ROI_Belief_Raw blankRow = blankRow "Q44" :=
  ⟨(roi_belief_raw_combines_q55_q44 r55).1 (Val.str "Definitely yes") (by decide),
   (roi_belief_raw_combines_q55_q44 blankRow).2.1 rfl⟩

end M1
